import Mathlib

/-!
Shallow embedding of the class CGAL::Rigid_mesh_collision_detection from
src/Polygon_mesh_processing/include/CGAL/Rigid_mesh_collision_detection.h.

The external collaborators (triangle meshes, AABB trees, the side-of
predicate, affine transformations, bounding boxes) are abstracted by handles
of type Nat together with an oracle structure `Geom` whose fields model the
external functions exactly at the granularity the engine calls them.
-/

namespace RigidMeshCollisionDetection

/-- Result type of the external point-in-closed-surface predicate
(CGAL::Bounded_side); the engine compares the result against ON_BOUNDED_SIDE
only. -/
inductive BoundedSide
  | ON_BOUNDED_SIDE
  | ON_BOUNDARY
  | ON_UNBOUNDED_SIDE
deriving DecidableEq, Repr

/-- Model of one AABB tree: the tree geometry is determined by the mesh it was
built over (the build happens once, in local coordinates) and the tree carries
a mutable transformation in its traits. -/
structure Tree where
  mesh : Nat
  transform : Nat
deriving DecidableEq, Repr

instance : Inhabited Tree := ⟨⟨0, 0⟩⟩

/-- Identity transformation handle: the default traits transformation of a
freshly built tree. -/
def identity_transform : Nat := 0

/-- Handle of a default constructed bounding box Bbox_3(). -/
def default_bbox : Nat := 0

/-- Oracle collecting the external collaborator functions the engine calls:
tree-vs-tree do_intersect, Side_of_triangle_mesh, application of a stored
transformation to a point, the vertex range of a mesh read through its point
map, is_closed, get_tree_bbox and bounding box do_overlap. -/
structure Geom where
  do_intersect : Tree → Tree → Bool
  side_of : Tree → Nat → BoundedSide
  apply_transform : Nat → Nat → Nat
  vertex_points : Nat → List Nat
  is_closed : Nat → Bool
  get_tree_bbox : Tree → Nat
  do_overlap : Nat → Nat → Bool

/-- State of a Rigid_mesh_collision_detection object: the parallel stores of
the registry. The last two stores model the members compiled in under
CGAL_CACHE_BOXES; the boost dynamic_bitset m_bboxes_is_invalid is embedded as
a list of Bool. -/
structure RMCD where
  m_triangle_mesh_ptrs : List Nat
  m_aabb_trees : List Tree
  m_is_closed : List Bool
  m_bboxes_is_invalid : List Bool
  m_bboxes : List Nat
deriving DecidableEq, Repr

/-- Tree stored at position k (in range in every use below). -/
def treeAt (S : RMCD) (k : Nat) : Tree := S.m_aabb_trees.getD k default

/-- Mesh pointer stored at position k. -/
def meshAt (S : RMCD) (k : Nat) : Nat := S.m_triangle_mesh_ptrs.getD k 0

/-- Closedness flag stored at position k. -/
def closedAt (S : RMCD) (k : Nat) : Bool := S.m_is_closed.getD k false

/-- Cached bounding box stored at position k. -/
def bboxAt (S : RMCD) (k : Nat) : Nat := S.m_bboxes.getD k default_bbox

/-- Embedding of init (also the constructor body): replaces every store; each
tree is built over its mesh with the default (identity) transformation;
m_is_closed is resized to false and then set per mesh from is_closed(tm),
which amounts to a map; under CGAL_CACHE_BOXES every box is default
constructed and marked invalid. -/
def init (G : Geom) (triangle_meshes : List Nat) : RMCD :=
  { m_triangle_mesh_ptrs := triangle_meshes
    m_aabb_trees := triangle_meshes.map (fun tm => { mesh := tm, transform := identity_transform })
    m_is_closed := triangle_meshes.map G.is_closed
    m_bboxes_is_invalid := List.replicate triangle_meshes.length true
    m_bboxes := List.replicate triangle_meshes.length default_bbox }

/-- Embedding of add_mesh: pushes is_closed(tm), the mesh pointer, a freshly
built tree and, under CGAL_CACHE_BOXES, a default box with its invalid bit
set. The source function is declared void, so the embedded operation returns
only the mutated state. -/
def add_mesh (G : Geom) (tm : Nat) (S : RMCD) : RMCD :=
  { m_triangle_mesh_ptrs := S.m_triangle_mesh_ptrs ++ [tm]
    m_aabb_trees := S.m_aabb_trees ++ [{ mesh := tm, transform := identity_transform }]
    m_is_closed := S.m_is_closed ++ [G.is_closed tm]
    m_bboxes_is_invalid := S.m_bboxes_is_invalid ++ [true]
    m_bboxes := S.m_bboxes ++ [default_bbox] }

/-- Value returned by a call to add_mesh in the source: the function is
declared void, so the call yields no value; embedded as the unit value. -/
def add_mesh_return_value (_G : Geom) (_tm : Nat) (_S : RMCD) : Unit := ()

/-- Embedding of remove_mesh: returns the state unchanged when mesh_id is out
of range; otherwise erases position mesh_id from the three main stores and,
under CGAL_CACHE_BOXES, pops the last cached box, sets every invalid bit and
resizes the bitset to the new number of meshes. -/
def remove_mesh (mesh_id : Nat) (S : RMCD) : RMCD :=
  if S.m_triangle_mesh_ptrs.length ≤ mesh_id then S
  else
    { m_triangle_mesh_ptrs := S.m_triangle_mesh_ptrs.eraseIdx mesh_id
      m_aabb_trees := S.m_aabb_trees.eraseIdx mesh_id
      m_is_closed := S.m_is_closed.eraseIdx mesh_id
      m_bboxes_is_invalid := List.replicate (S.m_triangle_mesh_ptrs.eraseIdx mesh_id).length true
      m_bboxes := S.m_bboxes.dropLast }

/-- Embedding of set_transformation: stores the transformation in the traits
of the tree at mesh_id and, under CGAL_CACHE_BOXES, sets that invalid bit.
The source access is unchecked and undefined on an out of range mesh_id; the
embedding uses List.set, which leaves the list unchanged out of range, and
the claims apply the operation in range only. -/
def set_transformation (mesh_id aff_trans : Nat) (S : RMCD) : RMCD :=
  { S with
    m_aabb_trees := S.m_aabb_trees.set mesh_id { treeAt S mesh_id with transform := aff_trans }
    m_bboxes_is_invalid := S.m_bboxes_is_invalid.set mesh_id true }

/-- Embedding of get_all_intersections as compiled by default (with
CGAL_CACHE_BOXES off): the loop over k pushes k exactly when k differs from
mesh_id and tree k do_intersect tree mesh_id holds, which as a list operation
is a filter of the index range. -/
def get_all_intersections (G : Geom) (S : RMCD) (mesh_id : Nat) : List Nat :=
  (List.range S.m_aabb_trees.length).filter
    (fun k => k != mesh_id && G.do_intersect (treeAt S k) (treeAt S mesh_id))

/-- One nesting probe of get_all_intersections_and_inclusions: reads the first
vertex of the candidate mesh (undefined, hence none, when the vertex range is
empty), maps it by the transformation stored in the candidate tree traits and
tests the image with Side_of_triangle_mesh of the container tree, true exactly
on ON_BOUNDED_SIDE. -/
def nesting_probe (G : Geom) (container candidate : Tree) (candidate_mesh : Nat) : Option Bool :=
  match (G.vertex_points candidate_mesh).head? with
  | none => none
  | some q =>
    some (decide (G.side_of container (G.apply_transform candidate.transform q) = BoundedSide.ON_BOUNDED_SIDE))

/-- Body of the loop of get_all_intersections_and_inclusions for one index k:
skip k = mesh_id; on tree-vs-tree intersection push (k, false); otherwise,
when mesh mesh_id is closed, probe the first vertex of mesh k against mesh_id
and on ON_BOUNDED_SIDE push (k, true) and continue; otherwise, when mesh k is
closed, probe the first vertex of mesh mesh_id against k and on
ON_BOUNDED_SIDE push (k, true); else push nothing. A probe reading an empty
vertex range is undefined behaviour in the source, embedded as none. -/
def inclusion_step (G : Geom) (S : RMCD) (mesh_id k : Nat) : Option (List (Nat × Bool)) :=
  if k = mesh_id then some []
  else if G.do_intersect (treeAt S k) (treeAt S mesh_id) then some [(k, false)]
  else
    match (if closedAt S mesh_id then nesting_probe G (treeAt S mesh_id) (treeAt S k) (meshAt S k) else some false) with
    | none => none
    | some true => some [(k, true)]
    | some false =>
      match (if closedAt S k then nesting_probe G (treeAt S k) (treeAt S mesh_id) (meshAt S mesh_id) else some false) with
      | none => none
      | some true => some [(k, true)]
      | some false => some []

/-- Sequential loop of get_all_intersections_and_inclusions over a list of
indices: the pushes of the steps are concatenated in order and undefined
behaviour propagates. -/
def inclusion_loop (G : Geom) (S : RMCD) (mesh_id : Nat) : List Nat → Option (List (Nat × Bool))
  | [] => some []
  | k :: ks =>
    match inclusion_step G S mesh_id k with
    | none => none
    | some l =>
      match inclusion_loop G S mesh_id ks with
      | none => none
      | some r => some (l ++ r)

/-- Embedding of get_all_intersections_and_inclusions as compiled by default. -/
def get_all_intersections_and_inclusions (G : Geom) (S : RMCD) (mesh_id : Nat) : Option (List (Nat × Bool)) :=
  inclusion_loop G S mesh_id (List.range S.m_aabb_trees.length)

/-- Embedding of set_transformation_and_get_all_intersections: the source body
calls set_transformation and then get_all_intersections on the mutated object
and returns the result of the latter. The pair carries the final state. -/
def set_transformation_and_get_all_intersections (G : Geom) (mesh_id aff_trans : Nat) (S : RMCD) : RMCD × List Nat :=
  let S2 := set_transformation mesh_id aff_trans S
  (S2, get_all_intersections G S2 mesh_id)

/-- Embedding of set_transformation_and_get_all_intersections_and_inclusions:
set_transformation followed by get_all_intersections_and_inclusions. -/
def set_transformation_and_get_all_intersections_and_inclusions (G : Geom) (mesh_id aff_trans : Nat) (S : RMCD) : RMCD × Option (List (Nat × Bool)) :=
  let S2 := set_transformation mesh_id aff_trans S
  (S2, get_all_intersections_and_inclusions G S2 mesh_id)

/-- Modelled from the spec: update_bboxes under CGAL_CACHE_BOXES. The source
loop header reads `i = m_bboxes.find_first()`, a member call on the
std::vector m_bboxes which has no such member, so the feature as written is
ill formed; this definition follows the evident intent, also stated by the
spec ("every invalid box is recomputed from its index and marked valid"):
every box whose invalid bit is set is recomputed from its tree and the whole
bitset is then reset. -/
def update_bboxes (G : Geom) (S : RMCD) : RMCD :=
  { S with
    m_bboxes := (List.range S.m_bboxes.length).map
      (fun j => if S.m_bboxes_is_invalid.getD j true then G.get_tree_bbox (treeAt S j) else bboxAt S j)
    m_bboxes_is_invalid := List.replicate S.m_bboxes_is_invalid.length false }

/-- Embedding of get_all_intersections with CGAL_CACHE_BOXES on and
update_bboxes as modelled above: the boxes are refreshed, then every pair
whose boxes do not overlap is skipped before the tree-vs-tree test. The pair
carries the final state. -/
def get_all_intersections_cached (G : Geom) (S : RMCD) (mesh_id : Nat) : RMCD × List Nat :=
  let S2 := update_bboxes G S
  (S2, (List.range S2.m_aabb_trees.length).filter
    (fun k => k != mesh_id && G.do_overlap (bboxAt S2 k) (bboxAt S2 mesh_id) && G.do_intersect (treeAt S2 k) (treeAt S2 mesh_id)))

/-- Loop body of get_all_intersections_and_inclusions with CGAL_CACHE_BOXES
on: after the k = mesh_id skip, a pair whose boxes do not overlap is skipped
entirely; the remaining code is the default loop body. -/
def inclusion_step_cached (G : Geom) (S : RMCD) (mesh_id k : Nat) : Option (List (Nat × Bool)) :=
  if k = mesh_id then some []
  else if G.do_overlap (bboxAt S k) (bboxAt S mesh_id) = false then some []
  else inclusion_step G S mesh_id k

/-- Sequential loop of the cached variant of
get_all_intersections_and_inclusions. -/
def inclusion_loop_cached (G : Geom) (S : RMCD) (mesh_id : Nat) : List Nat → Option (List (Nat × Bool))
  | [] => some []
  | k :: ks =>
    match inclusion_step_cached G S mesh_id k with
    | none => none
    | some l =>
      match inclusion_loop_cached G S mesh_id ks with
      | none => none
      | some r => some (l ++ r)

/-- Embedding of get_all_intersections_and_inclusions with CGAL_CACHE_BOXES on
and update_bboxes as modelled above. -/
def get_all_intersections_and_inclusions_cached (G : Geom) (S : RMCD) (mesh_id : Nat) : RMCD × Option (List (Nat × Bool)) :=
  let S2 := update_bboxes G S
  (S2, inclusion_loop_cached G S2 mesh_id (List.range S2.m_aabb_trees.length))

/-- Alphabet of the mutating operations of the registry. -/
inductive Op
  | opInit (triangle_meshes : List Nat)
  | opAdd (tm : Nat)
  | opRemove (mesh_id : Nat)
  | opSetTransformation (mesh_id aff_trans : Nat)

/-- Application of one mutating operation to a state. -/
def applyOp (G : Geom) (S : RMCD) : Op → RMCD
  | Op.opInit ms => init G ms
  | Op.opAdd tm => add_mesh G tm S
  | Op.opRemove p => remove_mesh p S
  | Op.opSetTransformation p t => set_transformation p t S

/-- Application of a sequence of mutating operations, first operation first. -/
def applyOps (G : Geom) (S : RMCD) (ops : List Op) : RMCD := ops.foldl (applyOp G) S

/-- Alignment invariant of the parallel stores: every store, the two cached
box stores included, has the same length as the mesh pointer store. -/
def storesAligned (S : RMCD) : Prop :=
  S.m_aabb_trees.length = S.m_triangle_mesh_ptrs.length ∧
  S.m_is_closed.length = S.m_triangle_mesh_ptrs.length ∧
  S.m_bboxes_is_invalid.length = S.m_triangle_mesh_ptrs.length ∧
  S.m_bboxes.length = S.m_triangle_mesh_ptrs.length

/-! Helper lemmas about the intersection query. -/

lemma mem_get_all_intersections (G : Geom) (S : RMCD) (mesh_id k : Nat) :
    k ∈ get_all_intersections G S mesh_id ↔
      k < S.m_aabb_trees.length ∧ k ≠ mesh_id ∧
        G.do_intersect (treeAt S k) (treeAt S mesh_id) = true := by
  simp [get_all_intersections, List.mem_filter, List.mem_range, Bool.and_eq_true,
    bne_iff_ne, and_assoc]

lemma get_all_intersections_sorted (G : Geom) (S : RMCD) (mesh_id : Nat) :
    (get_all_intersections G S mesh_id).Sorted (· < ·) :=
  List.Pairwise.filter _ (List.sorted_lt_range _)

/-! Helper lemmas about the single loop step of the inclusions query. -/

lemma inclusion_step_shape (G : Geom) (S : RMCD) (mesh_id k : Nat) :
    inclusion_step G S mesh_id k = none ∨
    inclusion_step G S mesh_id k = some [] ∨
    inclusion_step G S mesh_id k = some [(k, false)] ∨
    inclusion_step G S mesh_id k = some [(k, true)] := by
  unfold inclusion_step
  split
  · simp
  split
  · simp
  split <;> [simp; simp; skip]
  split <;> simp

lemma inclusion_step_fst (G : Geom) (S : RMCD) (mesh_id k : Nat) {l : List (Nat × Bool)}
    (h : inclusion_step G S mesh_id k = some l) {j : Nat} {b : Bool} (hj : (j, b) ∈ l) :
    j = k := by
  rcases inclusion_step_shape G S mesh_id k with hs | hs | hs | hs <;>
    rw [hs] at h <;> cases h <;> simp at hj
  · exact hj.1
  · exact hj.1

lemma inclusion_step_self (G : Geom) (S : RMCD) (mesh_id : Nat) :
    inclusion_step G S mesh_id mesh_id = some [] := by
  simp [inclusion_step]

lemma inclusion_step_intersecting (G : Geom) (S : RMCD) (mesh_id k : Nat)
    (hki : k ≠ mesh_id) (hd : G.do_intersect (treeAt S k) (treeAt S mesh_id) = true) :
    inclusion_step G S mesh_id k = some [(k, false)] := by
  simp [inclusion_step, hki, hd]

lemma inclusion_step_first_probe_none (G : Geom) (S : RMCD) (mesh_id k : Nat)
    (hki : k ≠ mesh_id) (hd : G.do_intersect (treeAt S k) (treeAt S mesh_id) = false)
    (hci : closedAt S mesh_id = true)
    (hp1 : nesting_probe G (treeAt S mesh_id) (treeAt S k) (meshAt S k) = none) :
    inclusion_step G S mesh_id k = none := by
  simp [inclusion_step, hki, hd, hci, hp1]

lemma inclusion_step_first_probe_true (G : Geom) (S : RMCD) (mesh_id k : Nat)
    (hki : k ≠ mesh_id) (hd : G.do_intersect (treeAt S k) (treeAt S mesh_id) = false)
    (hci : closedAt S mesh_id = true)
    (hp1 : nesting_probe G (treeAt S mesh_id) (treeAt S k) (meshAt S k) = some true) :
    inclusion_step G S mesh_id k = some [(k, true)] := by
  simp [inclusion_step, hki, hd, hci, hp1]

lemma inclusion_step_second_neither_closed (G : Geom) (S : RMCD) (mesh_id k : Nat)
    (hki : k ≠ mesh_id) (hd : G.do_intersect (treeAt S k) (treeAt S mesh_id) = false)
    (hci : closedAt S mesh_id = false) (hck : closedAt S k = false) :
    inclusion_step G S mesh_id k = some [] := by
  simp [inclusion_step, hki, hd, hci, hck]

lemma inclusion_step_second_probe_of_not_closed (G : Geom) (S : RMCD) (mesh_id k : Nat)
    (hki : k ≠ mesh_id) (hd : G.do_intersect (treeAt S k) (treeAt S mesh_id) = false)
    (hci : closedAt S mesh_id = false) (hck : closedAt S k = true) :
    inclusion_step G S mesh_id k =
      match nesting_probe G (treeAt S k) (treeAt S mesh_id) (meshAt S mesh_id) with
      | none => none
      | some true => some [(k, true)]
      | some false => some [] := by
  simp [inclusion_step, hki, hd, hci, hck]

lemma inclusion_step_second_probe_of_first_false (G : Geom) (S : RMCD) (mesh_id k : Nat)
    (hki : k ≠ mesh_id) (hd : G.do_intersect (treeAt S k) (treeAt S mesh_id) = false)
    (hci : closedAt S mesh_id = true)
    (hp1 : nesting_probe G (treeAt S mesh_id) (treeAt S k) (meshAt S k) = some false)
    (hck : closedAt S k = true) :
    inclusion_step G S mesh_id k =
      match nesting_probe G (treeAt S k) (treeAt S mesh_id) (meshAt S mesh_id) with
      | none => none
      | some true => some [(k, true)]
      | some false => some [] := by
  simp [inclusion_step, hki, hd, hci, hp1, hck]

lemma inclusion_step_first_false_not_closed (G : Geom) (S : RMCD) (mesh_id k : Nat)
    (hki : k ≠ mesh_id) (hd : G.do_intersect (treeAt S k) (treeAt S mesh_id) = false)
    (hci : closedAt S mesh_id = true)
    (hp1 : nesting_probe G (treeAt S mesh_id) (treeAt S k) (meshAt S k) = some false)
    (hck : closedAt S k = false) :
    inclusion_step G S mesh_id k = some [] := by
  simp [inclusion_step, hki, hd, hci, hp1, hck]

/-- Inclusion condition of one disjoint pair, read off the source loop body:
either the queried mesh is closed and its probe of the first vertex of mesh k
answers ON_BOUNDED_SIDE, or that test did not emit and mesh k is closed and
its probe of the first vertex of the queried mesh answers ON_BOUNDED_SIDE. -/
def nested_condition (G : Geom) (S : RMCD) (mesh_id k : Nat) : Prop :=
  (closedAt S mesh_id = true ∧
    nesting_probe G (treeAt S mesh_id) (treeAt S k) (meshAt S k) = some true) ∨
  (¬ (closedAt S mesh_id = true ∧
        nesting_probe G (treeAt S mesh_id) (treeAt S k) (meshAt S k) = some true) ∧
    closedAt S k = true ∧
    nesting_probe G (treeAt S k) (treeAt S mesh_id) (meshAt S mesh_id) = some true)

lemma inclusion_step_mem_disjoint (G : Geom) (S : RMCD) (mesh_id k : Nat)
    (hki : k ≠ mesh_id)
    (hd : G.do_intersect (treeAt S k) (treeAt S mesh_id) = false)
    {l : List (Nat × Bool)} (hstep : inclusion_step G S mesh_id k = some l) (b : Bool) :
    ((k, b) ∈ l ↔ b = true ∧ nested_condition G S mesh_id k) := by
  unfold nested_condition
  cases hci : closedAt S mesh_id
  · cases hck : closedAt S k
    · rw [inclusion_step_second_neither_closed G S mesh_id k hki hd hci hck] at hstep
      cases hstep
      simp
    · rw [inclusion_step_second_probe_of_not_closed G S mesh_id k hki hd hci hck] at hstep
      cases hp2 : nesting_probe G (treeAt S k) (treeAt S mesh_id) (meshAt S mesh_id) with
      | none => rw [hp2] at hstep; cases hstep
      | some b2 =>
        rw [hp2] at hstep
        cases b2 <;> cases hstep <;> simp [hci, hp2]
  · cases hp1 : nesting_probe G (treeAt S mesh_id) (treeAt S k) (meshAt S k) with
    | none =>
      rw [inclusion_step_first_probe_none G S mesh_id k hki hd hci hp1] at hstep
      cases hstep
    | some b1 =>
      cases b1
      · cases hck : closedAt S k
        · rw [inclusion_step_first_false_not_closed G S mesh_id k hki hd hci hp1 hck] at hstep
          cases hstep
          simp [hp1, hck]
        · rw [inclusion_step_second_probe_of_first_false G S mesh_id k hki hd hci hp1 hck] at hstep
          cases hp2 : nesting_probe G (treeAt S k) (treeAt S mesh_id) (meshAt S mesh_id) with
          | none => rw [hp2] at hstep; cases hstep
          | some b2 =>
            rw [hp2] at hstep
            cases b2 <;> cases hstep <;> simp [hp1, hp2, hck]
      · rw [inclusion_step_first_probe_true G S mesh_id k hki hd hci hp1] at hstep
        cases hstep
        simp [hp1]

lemma inclusion_step_mem_false_iff (G : Geom) (S : RMCD) (mesh_id k : Nat)
    (hki : k ≠ mesh_id)
    {l : List (Nat × Bool)} (hstep : inclusion_step G S mesh_id k = some l) :
    ((k, false) ∈ l ↔ G.do_intersect (treeAt S k) (treeAt S mesh_id) = true) := by
  cases hd : G.do_intersect (treeAt S k) (treeAt S mesh_id)
  · rw [inclusion_step_mem_disjoint G S mesh_id k hki hd hstep]
    simp
  · rw [inclusion_step_intersecting G S mesh_id k hki hd] at hstep
    cases hstep
    simp

lemma inclusion_step_true_closed (G : Geom) (S : RMCD) (mesh_id k : Nat)
    {l : List (Nat × Bool)} (h : inclusion_step G S mesh_id k = some l)
    (hmem : (k, true) ∈ l) :
    k ≠ mesh_id ∧ G.do_intersect (treeAt S k) (treeAt S mesh_id) = false ∧
      (closedAt S mesh_id = true ∨ closedAt S k = true) := by
  by_cases hki : k = mesh_id
  · subst hki
    rw [inclusion_step_self] at h
    cases h
    simp at hmem
  cases hd : G.do_intersect (treeAt S k) (treeAt S mesh_id)
  · refine ⟨hki, rfl, ?_⟩
    rw [inclusion_step_mem_disjoint G S mesh_id k hki hd h] at hmem
    rcases hmem.2 with ⟨hc, _⟩ | ⟨_, hc, _⟩
    · exact Or.inl hc
    · exact Or.inr hc
  · rw [inclusion_step_intersecting G S mesh_id k hki hd] at h
    cases h
    simp at hmem

/-! Helper lemmas about the loop of the inclusions query. -/

lemma inclusion_loop_none_of_mem (G : Geom) (S : RMCD) (mesh_id : Nat) {ks : List Nat}
    {k : Nat} (hk : k ∈ ks) (h : inclusion_step G S mesh_id k = none) :
    inclusion_loop G S mesh_id ks = none := by
  induction ks with
  | nil => simp at hk
  | cons k0 ks ih =>
    simp only [inclusion_loop]
    rcases List.mem_cons.mp hk with rfl | hk2
    · rw [h]
    · cases hs : inclusion_step G S mesh_id k0
      · rfl
      · rw [ih hk2]

lemma inclusion_loop_isSome (G : Geom) (S : RMCD) (mesh_id : Nat) {ks : List Nat}
    (h : ∀ k ∈ ks, (inclusion_step G S mesh_id k).isSome = true) :
    (inclusion_loop G S mesh_id ks).isSome = true := by
  induction ks with
  | nil => simp [inclusion_loop]
  | cons k0 ks ih =>
    have h0 := h k0 (List.mem_cons_self k0 ks)
    have hrest := ih (fun k hk => h k (List.mem_cons_of_mem _ hk))
    simp only [inclusion_loop]
    cases hs : inclusion_step G S mesh_id k0
    · rw [hs] at h0; simp at h0
    · cases hl : inclusion_loop G S mesh_id ks
      · rw [hl] at hrest; simp at hrest
      · simp

lemma inclusion_loop_steps_some (G : Geom) (S : RMCD) (mesh_id : Nat) {ks : List Nat}
    {res : List (Nat × Bool)} (h : inclusion_loop G S mesh_id ks = some res)
    {k : Nat} (hk : k ∈ ks) :
    ∃ l, inclusion_step G S mesh_id k = some l := by
  cases hs : inclusion_step G S mesh_id k
  · rw [inclusion_loop_none_of_mem G S mesh_id hk hs] at h; cases h
  · exact ⟨_, rfl⟩

lemma inclusion_loop_mem (G : Geom) (S : RMCD) (mesh_id : Nat) {ks : List Nat}
    {res : List (Nat × Bool)} (h : inclusion_loop G S mesh_id ks = some res)
    (k : Nat) (b : Bool) :
    ((k, b) ∈ res ↔ k ∈ ks ∧ ∃ l, inclusion_step G S mesh_id k = some l ∧ (k, b) ∈ l) := by
  induction ks generalizing res with
  | nil =>
    simp only [inclusion_loop] at h
    cases h
    simp
  | cons k0 ks ih =>
    simp only [inclusion_loop] at h
    split at h
    · cases h
    · rename_i l hs
      split at h
      · cases h
      · rename_i r hr
        cases h
        constructor
        · intro hmem
          rcases List.mem_append.mp hmem with hl | hrr
          · have hk := inclusion_step_fst G S mesh_id k0 hs hl
            subst hk
            exact ⟨List.mem_cons_self _ _, l, hs, hl⟩
          · rcases (ih hr).mp hrr with ⟨hk2, hl2⟩
            exact ⟨List.mem_cons_of_mem _ hk2, hl2⟩
        · rintro ⟨hkks, l2, hs2, hmem2⟩
          rcases List.mem_cons.mp hkks with rfl | hk2
          · rw [hs] at hs2
            cases hs2
            exact List.mem_append.mpr (Or.inl hmem2)
          · exact List.mem_append.mpr (Or.inr ((ih hr).mpr ⟨hk2, l2, hs2, hmem2⟩))

lemma mem_get_all_intersections_and_inclusions (G : Geom) (S : RMCD) (mesh_id : Nat)
    {res : List (Nat × Bool)}
    (h : get_all_intersections_and_inclusions G S mesh_id = some res) (k : Nat) (b : Bool) :
    ((k, b) ∈ res ↔ k < S.m_aabb_trees.length ∧
      ∃ l, inclusion_step G S mesh_id k = some l ∧ (k, b) ∈ l) := by
  rw [inclusion_loop_mem G S mesh_id h k b, List.mem_range]

lemma inclusion_loop_cached_congr (G : Geom) (S2 S : RMCD) (mesh_id : Nat) {ks : List Nat}
    (h : ∀ k ∈ ks, inclusion_step_cached G S2 mesh_id k = inclusion_step G S mesh_id k) :
    inclusion_loop_cached G S2 mesh_id ks = inclusion_loop G S mesh_id ks := by
  induction ks with
  | nil => rfl
  | cons k0 ks ih =>
    simp only [inclusion_loop_cached, inclusion_loop]
    rw [h k0 (List.mem_cons_self k0 ks), ih (fun k hk => h k (List.mem_cons_of_mem _ hk))]

/-! Helper lemmas about the nesting probe and about undefined behaviour. -/

lemma nesting_probe_eq_none_iff (G : Geom) (container candidate : Tree) (cm : Nat) :
    nesting_probe G container candidate cm = none ↔ (G.vertex_points cm).head? = none := by
  unfold nesting_probe
  cases h : (G.vertex_points cm).head? <;> simp

lemma nesting_probe_of_empty (G : Geom) (container candidate : Tree) (cm : Nat)
    (h : G.vertex_points cm = []) :
    nesting_probe G container candidate cm = none := by
  simp [nesting_probe, h]

lemma nesting_probe_of_head (G : Geom) (container candidate : Tree) (cm q : Nat)
    (h : (G.vertex_points cm).head? = some q) :
    nesting_probe G container candidate cm =
      some (decide (G.side_of container
        (G.apply_transform candidate.transform q) = BoundedSide.ON_BOUNDED_SIDE)) := by
  simp [nesting_probe, h]

lemma inclusion_step_isSome_of_nonempty (G : Geom) (S : RMCD) (mesh_id k : Nat)
    (hvk : G.vertex_points (meshAt S k) ≠ [])
    (hvi : G.vertex_points (meshAt S mesh_id) ≠ []) :
    (inclusion_step G S mesh_id k).isSome = true := by
  have hpk : (G.vertex_points (meshAt S k)).head? ≠ none := by
    rw [Ne, List.head?_eq_none_iff]; exact hvk
  have hpi : (G.vertex_points (meshAt S mesh_id)).head? ≠ none := by
    rw [Ne, List.head?_eq_none_iff]; exact hvi
  unfold inclusion_step
  split
  · rfl
  split
  · rfl
  split
  · rename_i heq
    split at heq
    · exact absurd ((nesting_probe_eq_none_iff G _ _ _).mp heq) hpk
    · exact Option.noConfusion heq
  · rfl
  · split
    · rename_i heq2
      split at heq2
      · exact absurd ((nesting_probe_eq_none_iff G _ _ _).mp heq2) hpi
      · exact Option.noConfusion heq2
    · rfl
    · rfl

/-! Helper lemmas about the modelled update_bboxes. -/

lemma trees_update_bboxes (G : Geom) (S : RMCD) :
    (update_bboxes G S).m_aabb_trees = S.m_aabb_trees := rfl

lemma treeAt_update_bboxes (G : Geom) (S : RMCD) (k : Nat) :
    treeAt (update_bboxes G S) k = treeAt S k := rfl

lemma inclusion_step_update_bboxes (G : Geom) (S : RMCD) (mesh_id k : Nat) :
    inclusion_step G (update_bboxes G S) mesh_id k = inclusion_step G S mesh_id k := rfl

lemma bboxAt_update_bboxes (G : Geom) (S : RMCD) (j : Nat) (hj : j < S.m_bboxes.length)
    (hacc : S.m_bboxes_is_invalid.getD j true = false →
      bboxAt S j = G.get_tree_bbox (treeAt S j)) :
    bboxAt (update_bboxes G S) j = G.get_tree_bbox (treeAt S j) := by
  have hmap : (update_bboxes G S).m_bboxes[j]? =
      some (if S.m_bboxes_is_invalid.getD j true then G.get_tree_bbox (treeAt S j)
        else bboxAt S j) := by
    simp [update_bboxes, List.getElem?_range hj]
  rw [bboxAt, List.getD_eq_getElem?_getD, hmap]
  cases hb : S.m_bboxes_is_invalid.getD j true
  · simpa using hacc hb
  · simp

/-! Concrete fixtures used by the witnesses. -/

/-- Concrete oracle: every pair of trees intersects, no mesh is closed, every
mesh has one vertex, every pair of boxes overlaps. -/
def Gtrue : Geom where
  do_intersect := fun _ _ => true
  side_of := fun _ _ => BoundedSide.ON_UNBOUNDED_SIDE
  apply_transform := fun _ q => q
  vertex_points := fun _ => [0]
  is_closed := fun _ => false
  get_tree_bbox := fun _ => 0
  do_overlap := fun _ _ => true

/-- Concrete oracle: no pair of trees intersects, every mesh is closed with a
single vertex and every probe answers ON_BOUNDED_SIDE. -/
def Gnested : Geom where
  do_intersect := fun _ _ => false
  side_of := fun _ _ => BoundedSide.ON_BOUNDED_SIDE
  apply_transform := fun _ q => q
  vertex_points := fun _ => [3]
  is_closed := fun _ => true
  get_tree_bbox := fun _ => 0
  do_overlap := fun _ _ => true

/-- Two-mesh registry over the intersecting oracle. -/
def Wtrue : RMCD := init Gtrue [10, 20]

/-- Two-mesh registry over the nesting oracle. -/
def Wnested : RMCD := init Gnested [10, 20]

/-! Claim theorems. -/

/-- C3: for an in-range position, get_all_intersections returns exactly the
positions k different from mesh_id whose transformed tree reports
do_intersect with the tree at mesh_id, in strictly ascending order, and
mesh_id itself never occurs in the result. -/
theorem C3_get_all_intersections_exact (G : Geom) (S : RMCD) (mesh_id : Nat)
    (_hi : mesh_id < S.m_aabb_trees.length) :
    (∀ k, k ∈ get_all_intersections G S mesh_id ↔
      k < S.m_aabb_trees.length ∧ k ≠ mesh_id ∧
        G.do_intersect (treeAt S k) (treeAt S mesh_id) = true) ∧
    (get_all_intersections G S mesh_id).Sorted (· < ·) ∧
    mesh_id ∉ get_all_intersections G S mesh_id :=
  ⟨fun k => mem_get_all_intersections G S mesh_id k,
   get_all_intersections_sorted G S mesh_id,
   fun hmem => ((mem_get_all_intersections G S mesh_id mesh_id).mp hmem).2.1 rfl⟩

/-- Witness for C3 at the two-mesh intersecting registry and position 0. -/
theorem C3_witness :
    (0 < Wtrue.m_aabb_trees.length) ∧
    ((∀ k, k ∈ get_all_intersections Gtrue Wtrue 0 ↔
        k < Wtrue.m_aabb_trees.length ∧ k ≠ 0 ∧
          Gtrue.do_intersect (treeAt Wtrue k) (treeAt Wtrue 0) = true) ∧
      (get_all_intersections Gtrue Wtrue 0).Sorted (· < ·) ∧
      0 ∉ get_all_intersections Gtrue Wtrue 0) :=
  ⟨by decide, C3_get_all_intersections_exact Gtrue Wtrue 0 (by decide)⟩

/-- C6: when the external tree-vs-tree overlap test is symmetric, membership
in the intersection lists is symmetric over distinct in-range positions. -/
theorem C6_symmetry (G : Geom) (S : RMCD)
    (hsymm : ∀ t1 t2, G.do_intersect t1 t2 = G.do_intersect t2 t1)
    (i j : Nat) (hi : i < S.m_aabb_trees.length) (hj : j < S.m_aabb_trees.length)
    (hij : i ≠ j) :
    (j ∈ get_all_intersections G S i ↔ i ∈ get_all_intersections G S j) := by
  rw [mem_get_all_intersections, mem_get_all_intersections,
    hsymm (treeAt S j) (treeAt S i)]
  constructor
  · rintro ⟨_, _, hd⟩
    exact ⟨hi, hij, hd⟩
  · rintro ⟨_, _, hd⟩
    exact ⟨hj, Ne.symm hij, hd⟩

/-- Witness for C6 at the two-mesh intersecting registry and positions 0, 1. -/
theorem C6_witness :
    (∀ t1 t2, Gtrue.do_intersect t1 t2 = Gtrue.do_intersect t2 t1) ∧
    (0 < Wtrue.m_aabb_trees.length) ∧ (1 < Wtrue.m_aabb_trees.length) ∧ (0 ≠ 1) ∧
    (1 ∈ get_all_intersections Gtrue Wtrue 0 ↔ 0 ∈ get_all_intersections Gtrue Wtrue 1) :=
  ⟨fun _ _ => rfl, by decide, by decide, by decide,
   C6_symmetry Gtrue Wtrue (fun _ _ => rfl) 0 1 (by decide) (by decide) (by decide)⟩

/-- C4 (amended): add_mesh appends exactly one entry at the end of every
store; the new tree carries the identity transformation, the closedness flag
is computed from the mesh, the new entry lands at the position given by the
registry size before the call and every earlier entry is unchanged. The
source function is declared void, so nothing is returned. -/
theorem C4_add_mesh_appends (G : Geom) (tm : Nat) (S : RMCD) :
    ((add_mesh G tm S).m_triangle_mesh_ptrs.length = S.m_triangle_mesh_ptrs.length + 1) ∧
    ((add_mesh G tm S).m_aabb_trees.length = S.m_aabb_trees.length + 1) ∧
    ((add_mesh G tm S).m_is_closed.length = S.m_is_closed.length + 1) ∧
    ((add_mesh G tm S).m_triangle_mesh_ptrs[S.m_triangle_mesh_ptrs.length]? = some tm) ∧
    ((add_mesh G tm S).m_aabb_trees[S.m_aabb_trees.length]? =
      some { mesh := tm, transform := identity_transform }) ∧
    ((add_mesh G tm S).m_is_closed[S.m_is_closed.length]? = some (G.is_closed tm)) ∧
    (∀ q, q < S.m_triangle_mesh_ptrs.length →
      (add_mesh G tm S).m_triangle_mesh_ptrs[q]? = S.m_triangle_mesh_ptrs[q]?) ∧
    (∀ q, q < S.m_aabb_trees.length →
      (add_mesh G tm S).m_aabb_trees[q]? = S.m_aabb_trees[q]?) ∧
    (∀ q, q < S.m_is_closed.length →
      (add_mesh G tm S).m_is_closed[q]? = S.m_is_closed[q]?) := by
  refine ⟨by simp [add_mesh], by simp [add_mesh], by simp [add_mesh],
    ?_, ?_, ?_, ?_, ?_, ?_⟩
  · simp [add_mesh]
  · simp [add_mesh]
  · simp [add_mesh]
  · intro q hq
    simp [add_mesh, List.getElem?_append_left hq]
  · intro q hq
    simp [add_mesh, List.getElem?_append_left hq]
  · intro q hq
    simp [add_mesh, List.getElem?_append_left hq]

/-- C4 counterexample: the source declares add_mesh void, so two calls on
registries of different sizes return the same (empty) value while the claim
says the return is the registry size before the call, which differs. -/
theorem C4_add_mesh_void_counterexample :
    (add_mesh_return_value Gtrue 5 (init Gtrue []) =
      add_mesh_return_value Gtrue 5 (init Gtrue [7])) ∧
    (init Gtrue []).m_triangle_mesh_ptrs.length ≠
      (init Gtrue [7]).m_triangle_mesh_ptrs.length :=
  ⟨rfl, by decide⟩

/-- C5: remove_mesh is a no-op on an out of range position; on an in-range
position it erases exactly the entry at that position, every earlier entry is
unchanged, and the entry formerly at position q + 1 is afterwards found at
position q with the same surface, tree (hence transform) and closedness flag. -/
theorem C5_remove_mesh_spec (S : RMCD) (p : Nat)
    (hA : S.m_aabb_trees.length = S.m_triangle_mesh_ptrs.length ∧
      S.m_is_closed.length = S.m_triangle_mesh_ptrs.length) :
    (S.m_triangle_mesh_ptrs.length ≤ p → remove_mesh p S = S) ∧
    (p < S.m_triangle_mesh_ptrs.length →
      ((remove_mesh p S).m_triangle_mesh_ptrs.length = S.m_triangle_mesh_ptrs.length - 1) ∧
      ((remove_mesh p S).m_aabb_trees.length = S.m_aabb_trees.length - 1) ∧
      ((remove_mesh p S).m_is_closed.length = S.m_is_closed.length - 1) ∧
      (∀ q, q < p →
        (remove_mesh p S).m_triangle_mesh_ptrs[q]? = S.m_triangle_mesh_ptrs[q]? ∧
        (remove_mesh p S).m_aabb_trees[q]? = S.m_aabb_trees[q]? ∧
        (remove_mesh p S).m_is_closed[q]? = S.m_is_closed[q]?) ∧
      (∀ q, p ≤ q →
        (remove_mesh p S).m_triangle_mesh_ptrs[q]? = S.m_triangle_mesh_ptrs[q + 1]? ∧
        (remove_mesh p S).m_aabb_trees[q]? = S.m_aabb_trees[q + 1]? ∧
        (remove_mesh p S).m_is_closed[q]? = S.m_is_closed[q + 1]?)) := by
  obtain ⟨hA1, hA2⟩ := hA
  constructor
  · intro hp
    simp only [remove_mesh, if_pos hp]
  · intro hp
    have hnp : ¬ S.m_triangle_mesh_ptrs.length ≤ p := not_le.mpr hp
    have e1 : (remove_mesh p S).m_triangle_mesh_ptrs = S.m_triangle_mesh_ptrs.eraseIdx p := by
      simp only [remove_mesh, if_neg hnp]
    have e2 : (remove_mesh p S).m_aabb_trees = S.m_aabb_trees.eraseIdx p := by
      simp only [remove_mesh, if_neg hnp]
    have e3 : (remove_mesh p S).m_is_closed = S.m_is_closed.eraseIdx p := by
      simp only [remove_mesh, if_neg hnp]
    refine ⟨?_, ?_, ?_, ?_, ?_⟩
    · rw [e1, List.length_eraseIdx_of_lt hp]
    · rw [e2, List.length_eraseIdx_of_lt (by omega)]
    · rw [e3, List.length_eraseIdx_of_lt (by omega)]
    · intro q hq
      exact ⟨by rw [e1, List.getElem?_eraseIdx_of_lt _ _ _ hq],
        by rw [e2, List.getElem?_eraseIdx_of_lt _ _ _ hq],
        by rw [e3, List.getElem?_eraseIdx_of_lt _ _ _ hq]⟩
    · intro q hq
      exact ⟨by rw [e1, List.getElem?_eraseIdx_of_ge _ _ _ hq],
        by rw [e2, List.getElem?_eraseIdx_of_ge _ _ _ hq],
        by rw [e3, List.getElem?_eraseIdx_of_ge _ _ _ hq]⟩

/-- Witness for C5 at the two-mesh intersecting registry and position 1. -/
theorem C5_witness :
    (Wtrue.m_aabb_trees.length = Wtrue.m_triangle_mesh_ptrs.length ∧
      Wtrue.m_is_closed.length = Wtrue.m_triangle_mesh_ptrs.length) ∧
    ((Wtrue.m_triangle_mesh_ptrs.length ≤ 1 → remove_mesh 1 Wtrue = Wtrue) ∧
      (1 < Wtrue.m_triangle_mesh_ptrs.length →
        ((remove_mesh 1 Wtrue).m_triangle_mesh_ptrs.length = Wtrue.m_triangle_mesh_ptrs.length - 1) ∧
        ((remove_mesh 1 Wtrue).m_aabb_trees.length = Wtrue.m_aabb_trees.length - 1) ∧
        ((remove_mesh 1 Wtrue).m_is_closed.length = Wtrue.m_is_closed.length - 1) ∧
        (∀ q, q < 1 →
          (remove_mesh 1 Wtrue).m_triangle_mesh_ptrs[q]? = Wtrue.m_triangle_mesh_ptrs[q]? ∧
          (remove_mesh 1 Wtrue).m_aabb_trees[q]? = Wtrue.m_aabb_trees[q]? ∧
          (remove_mesh 1 Wtrue).m_is_closed[q]? = Wtrue.m_is_closed[q]?) ∧
        (∀ q, 1 ≤ q →
          (remove_mesh 1 Wtrue).m_triangle_mesh_ptrs[q]? = Wtrue.m_triangle_mesh_ptrs[q + 1]? ∧
          (remove_mesh 1 Wtrue).m_aabb_trees[q]? = Wtrue.m_aabb_trees[q + 1]? ∧
          (remove_mesh 1 Wtrue).m_is_closed[q]? = Wtrue.m_is_closed[q + 1]?))) :=
  ⟨⟨by decide, by decide⟩, C5_remove_mesh_spec Wtrue 1 ⟨by decide, by decide⟩⟩

/-- C7: the two convenience compositions return exactly the result of calling
set_transformation followed by the corresponding query and leave the registry
in the state produced by set_transformation (the default-build queries do not
mutate the registry). -/
theorem C7_composition (G : Geom) (S : RMCD) (mesh_id aff_trans : Nat)
    (_hi : mesh_id < S.m_aabb_trees.length) :
    (set_transformation_and_get_all_intersections G mesh_id aff_trans S =
      (set_transformation mesh_id aff_trans S,
        get_all_intersections G (set_transformation mesh_id aff_trans S) mesh_id)) ∧
    (set_transformation_and_get_all_intersections_and_inclusions G mesh_id aff_trans S =
      (set_transformation mesh_id aff_trans S,
        get_all_intersections_and_inclusions G
          (set_transformation mesh_id aff_trans S) mesh_id)) :=
  ⟨rfl, rfl⟩

/-- Witness for C7 at the two-mesh intersecting registry, position 0 and
transformation 42. -/
theorem C7_witness :
    (0 < Wtrue.m_aabb_trees.length) ∧
    ((set_transformation_and_get_all_intersections Gtrue 0 42 Wtrue =
      (set_transformation 0 42 Wtrue,
        get_all_intersections Gtrue (set_transformation 0 42 Wtrue) 0)) ∧
    (set_transformation_and_get_all_intersections_and_inclusions Gtrue 0 42 Wtrue =
      (set_transformation 0 42 Wtrue,
        get_all_intersections_and_inclusions Gtrue (set_transformation 0 42 Wtrue) 0))) :=
  ⟨by decide, C7_composition Gtrue Wtrue 0 42 (by decide)⟩

/-- Preservation of the alignment invariant by one mutating operation. -/
lemma storesAligned_applyOp (G : Geom) (S : RMCD) (op : Op) (h : storesAligned S) :
    storesAligned (applyOp G S op) := by
  obtain ⟨h1, h2, h3, h4⟩ := h
  cases op with
  | opInit ms => simp [applyOp, init, storesAligned]
  | opAdd tm => simp [applyOp, add_mesh, storesAligned, h1, h2, h3, h4]
  | opRemove p =>
    by_cases hp : S.m_triangle_mesh_ptrs.length ≤ p
    · simp only [applyOp, remove_mesh, if_pos hp]
      exact ⟨h1, h2, h3, h4⟩
    · have hlt : p < S.m_triangle_mesh_ptrs.length := not_le.mp hp
      simp only [applyOp, remove_mesh, if_neg hp, storesAligned]
      refine ⟨?_, ?_, ?_, ?_⟩
      · rw [List.length_eraseIdx_of_lt (by omega), List.length_eraseIdx_of_lt hlt, h1]
      · rw [List.length_eraseIdx_of_lt (by omega), List.length_eraseIdx_of_lt hlt, h2]
      · rw [List.length_replicate]
      · rw [List.length_dropLast, List.length_eraseIdx_of_lt hlt, h4]
  | opSetTransformation p t =>
    simp [applyOp, set_transformation, storesAligned, h1, h2, h3, h4]

/-- C9: after every sequence of mutating operations starting from a registry
built by the constructor (init), all parallel stores, the two cached box
stores included, have exactly the same length. -/
theorem C9_stores_aligned (G : Geom) (triangle_meshes : List Nat) (ops : List Op) :
    storesAligned (applyOps G (init G triangle_meshes) ops) := by
  have hinit : storesAligned (init G triangle_meshes) := by
    simp [init, storesAligned]
  suffices h : ∀ S, storesAligned S → storesAligned (applyOps G S ops) from
    h _ hinit
  induction ops with
  | nil => exact fun S hS => hS
  | cons op ops ih =>
    intro S hS
    exact ih _ (storesAligned_applyOp G S op hS)

/-- C1: for a disjoint pair (mesh_id, k) of an in-range query with a defined
result, with qk the first vertex of mesh k and qi the first vertex of mesh
mesh_id, the pair (k, true) is emitted exactly per the closedness guarded
probes, each counting only the answer ON_BOUNDED_SIDE (an on-boundary answer
never counts), the second probe running only when the first did not emit; and
when neither probe reports strictly inside, no pair (k, b) appears at all. -/
theorem C1_disjoint_nesting (G : Geom) (S : RMCD) (mesh_id : Nat)
    (_hi : mesh_id < S.m_aabb_trees.length)
    (k : Nat) (hk : k < S.m_aabb_trees.length) (hki : k ≠ mesh_id)
    (hdisj : G.do_intersect (treeAt S k) (treeAt S mesh_id) = false)
    (qk qi : Nat)
    (hqk : (G.vertex_points (meshAt S k)).head? = some qk)
    (hqi : (G.vertex_points (meshAt S mesh_id)).head? = some qi)
    {res : List (Nat × Bool)}
    (hres : get_all_intersections_and_inclusions G S mesh_id = some res) :
    ∀ b : Bool, ((k, b) ∈ res ↔ b = true ∧
      ((closedAt S mesh_id = true ∧
          G.side_of (treeAt S mesh_id) (G.apply_transform (treeAt S k).transform qk) =
            BoundedSide.ON_BOUNDED_SIDE) ∨
        (¬ (closedAt S mesh_id = true ∧
              G.side_of (treeAt S mesh_id) (G.apply_transform (treeAt S k).transform qk) =
                BoundedSide.ON_BOUNDED_SIDE) ∧
          closedAt S k = true ∧
          G.side_of (treeAt S k) (G.apply_transform (treeAt S mesh_id).transform qi) =
            BoundedSide.ON_BOUNDED_SIDE))) := by
  have hrange : k ∈ List.range S.m_aabb_trees.length := List.mem_range.mpr hk
  obtain ⟨l, hstep⟩ := inclusion_loop_steps_some G S mesh_id hres hrange
  have hp1 : nesting_probe G (treeAt S mesh_id) (treeAt S k) (meshAt S k) = some true ↔
      G.side_of (treeAt S mesh_id) (G.apply_transform (treeAt S k).transform qk) =
        BoundedSide.ON_BOUNDED_SIDE := by
    rw [nesting_probe_of_head G _ _ _ qk hqk]
    simp
  have hp2 : nesting_probe G (treeAt S k) (treeAt S mesh_id) (meshAt S mesh_id) = some true ↔
      G.side_of (treeAt S k) (G.apply_transform (treeAt S mesh_id).transform qi) =
        BoundedSide.ON_BOUNDED_SIDE := by
    rw [nesting_probe_of_head G _ _ _ qi hqi]
    simp
  intro b
  rw [mem_get_all_intersections_and_inclusions G S mesh_id hres k b]
  have hmem := inclusion_step_mem_disjoint G S mesh_id k hki hdisj hstep b
  unfold nested_condition at hmem
  rw [hp1, hp2] at hmem
  constructor
  · rintro ⟨_, l2, hstep2, hb⟩
    rw [hstep] at hstep2
    cases hstep2
    exact hmem.mp hb
  · intro hcnd
    exact ⟨hk, l, hstep, hmem.mpr hcnd⟩

/-- Witness for C1 at the nesting oracle, two-mesh registry, query 0, pair 1. -/
theorem C1_witness :
    (0 < Wnested.m_aabb_trees.length) ∧ (1 < Wnested.m_aabb_trees.length) ∧ (1 ≠ 0) ∧
    (Gnested.do_intersect (treeAt Wnested 1) (treeAt Wnested 0) = false) ∧
    ((Gnested.vertex_points (meshAt Wnested 1)).head? = some 3) ∧
    ((Gnested.vertex_points (meshAt Wnested 0)).head? = some 3) ∧
    (get_all_intersections_and_inclusions Gnested Wnested 0 = some [(1, true)]) ∧
    (∀ b : Bool, ((1, b) ∈ [(1, true)] ↔ b = true ∧
      ((closedAt Wnested 0 = true ∧
          Gnested.side_of (treeAt Wnested 0)
            (Gnested.apply_transform (treeAt Wnested 1).transform 3) =
            BoundedSide.ON_BOUNDED_SIDE) ∨
        (¬ (closedAt Wnested 0 = true ∧
              Gnested.side_of (treeAt Wnested 0)
                (Gnested.apply_transform (treeAt Wnested 1).transform 3) =
                BoundedSide.ON_BOUNDED_SIDE) ∧
          closedAt Wnested 1 = true ∧
          Gnested.side_of (treeAt Wnested 1)
            (Gnested.apply_transform (treeAt Wnested 0).transform 3) =
            BoundedSide.ON_BOUNDED_SIDE)))) :=
  ⟨by decide, by decide, by decide, by decide, by decide, by decide, by decide,
   C1_disjoint_nesting Gnested Wnested 0 (by decide) 1 (by decide) (by decide)
     (by decide) 3 3 (by decide) (by decide) (by decide)⟩

/-- C2: in a defined result, every pair reported nested is absent from
get_all_intersections of the same position and one of the two surfaces is
closed; conversely every other in-range position whose tree-vs-tree test is
true appears in the result paired with false. -/
theorem C2_nesting_preconditions (G : Geom) (S : RMCD) (mesh_id : Nat)
    (_hi : mesh_id < S.m_aabb_trees.length)
    {res : List (Nat × Bool)}
    (hres : get_all_intersections_and_inclusions G S mesh_id = some res) :
    (∀ j, (j, true) ∈ res →
      j ∉ get_all_intersections G S mesh_id ∧
        (closedAt S mesh_id = true ∨ closedAt S j = true)) ∧
    (∀ j, j < S.m_aabb_trees.length → j ≠ mesh_id →
      G.do_intersect (treeAt S j) (treeAt S mesh_id) = true → (j, false) ∈ res) := by
  constructor
  · intro j hj
    rw [mem_get_all_intersections_and_inclusions G S mesh_id hres j true] at hj
    obtain ⟨hjn, l, hstep, hmem⟩ := hj
    obtain ⟨hji, hdisj, hclosed⟩ := inclusion_step_true_closed G S mesh_id j hstep hmem
    refine ⟨?_, hclosed⟩
    intro hmem2
    rw [mem_get_all_intersections] at hmem2
    rw [hmem2.2.2] at hdisj
    exact absurd hdisj (by simp)
  · intro j hjn hji hd
    rw [mem_get_all_intersections_and_inclusions G S mesh_id hres j false]
    exact ⟨hjn, [(j, false)], inclusion_step_intersecting G S mesh_id j hji hd, by simp⟩

/-- Witness for C2 at the intersecting oracle, two-mesh registry, query 0. -/
theorem C2_witness :
    (0 < Wtrue.m_aabb_trees.length) ∧
    (get_all_intersections_and_inclusions Gtrue Wtrue 0 = some [(1, false)]) ∧
    ((∀ j, (j, true) ∈ [((1 : Nat), false)] →
      j ∉ get_all_intersections Gtrue Wtrue 0 ∧
        (closedAt Wtrue 0 = true ∨ closedAt Wtrue j = true)) ∧
    (∀ j, j < Wtrue.m_aabb_trees.length → j ≠ 0 →
      Gtrue.do_intersect (treeAt Wtrue j) (treeAt Wtrue 0) = true →
        (j, false) ∈ [((1 : Nat), false)])) :=
  ⟨by decide, by decide,
   C2_nesting_preconditions Gtrue Wtrue 0 (by decide) (by decide)⟩

/-- C10: an in-range query has a defined result whenever every registered
mesh has at least one vertex; and whenever a closedness guarded nesting probe
is reached for a pair whose probed mesh has an empty vertex range (the
queried mesh closed and mesh k empty, or the queried mesh not closed, mesh k
closed and the queried mesh empty), the whole query is undefined. -/
theorem C10_empty_mesh_probe (G : Geom) (S : RMCD) (mesh_id : Nat)
    (hi : mesh_id < S.m_aabb_trees.length) :
    ((∀ k, k < S.m_aabb_trees.length → G.vertex_points (meshAt S k) ≠ []) →
      (get_all_intersections_and_inclusions G S mesh_id).isSome = true) ∧
    (∀ k, k < S.m_aabb_trees.length → k ≠ mesh_id →
      G.do_intersect (treeAt S k) (treeAt S mesh_id) = false →
      closedAt S mesh_id = true →
      G.vertex_points (meshAt S k) = [] →
      get_all_intersections_and_inclusions G S mesh_id = none) ∧
    (∀ k, k < S.m_aabb_trees.length → k ≠ mesh_id →
      G.do_intersect (treeAt S k) (treeAt S mesh_id) = false →
      closedAt S mesh_id = false → closedAt S k = true →
      G.vertex_points (meshAt S mesh_id) = [] →
      get_all_intersections_and_inclusions G S mesh_id = none) := by
  refine ⟨?_, ?_, ?_⟩
  · intro hv
    show (inclusion_loop G S mesh_id (List.range S.m_aabb_trees.length)).isSome = true
    apply inclusion_loop_isSome
    intro k hk
    rw [List.mem_range] at hk
    exact inclusion_step_isSome_of_nonempty G S mesh_id k (hv k hk) (hv mesh_id hi)
  · intro k hk hki hd hci hempty
    have hstep : inclusion_step G S mesh_id k = none :=
      inclusion_step_first_probe_none G S mesh_id k hki hd hci
        (nesting_probe_of_empty G _ _ _ hempty)
    exact inclusion_loop_none_of_mem G S mesh_id (List.mem_range.mpr hk) hstep
  · intro k hk hki hd hci hck hempty
    have hstep : inclusion_step G S mesh_id k = none := by
      rw [inclusion_step_second_probe_of_not_closed G S mesh_id k hki hd hci hck,
        nesting_probe_of_empty G _ _ _ hempty]
    exact inclusion_loop_none_of_mem G S mesh_id (List.mem_range.mpr hk) hstep

/-- Witness for C10 at the nesting oracle, two-mesh registry, query 0. -/
theorem C10_witness :
    (0 < Wnested.m_aabb_trees.length) ∧
    (((∀ k, k < Wnested.m_aabb_trees.length →
        Gnested.vertex_points (meshAt Wnested k) ≠ []) →
      (get_all_intersections_and_inclusions Gnested Wnested 0).isSome = true) ∧
    (∀ k, k < Wnested.m_aabb_trees.length → k ≠ 0 →
      Gnested.do_intersect (treeAt Wnested k) (treeAt Wnested 0) = false →
      closedAt Wnested 0 = true →
      Gnested.vertex_points (meshAt Wnested k) = [] →
      get_all_intersections_and_inclusions Gnested Wnested 0 = none) ∧
    (∀ k, k < Wnested.m_aabb_trees.length → k ≠ 0 →
      Gnested.do_intersect (treeAt Wnested k) (treeAt Wnested 0) = false →
      closedAt Wnested 0 = false → closedAt Wnested k = true →
      Gnested.vertex_points (meshAt Wnested 0) = [] →
      get_all_intersections_and_inclusions Gnested Wnested 0 = none)) :=
  ⟨by decide, C10_empty_mesh_probe Gnested Wnested 0 (by decide)⟩

/-- C8 supporting theorem (the source update_bboxes is ill formed, see the
doc comment on update_bboxes): with the intended update_bboxes, whenever the
boxes marked valid are accurate, the box overlap filter is conservative for
do_intersect, and pairs with box-disjoint trees contribute nothing to the
inclusions loop, both cached queries return exactly the default-build
results. -/
theorem C8_cache_preserves_queries (G : Geom) (S : RMCD) (mesh_id : Nat)
    (hi : mesh_id < S.m_aabb_trees.length)
    (hlenb : S.m_bboxes.length = S.m_aabb_trees.length)
    (hacc : ∀ j, j < S.m_aabb_trees.length →
      S.m_bboxes_is_invalid.getD j true = false →
      bboxAt S j = G.get_tree_bbox (treeAt S j))
    (hcons : ∀ t1 t2, G.do_overlap (G.get_tree_bbox t1) (G.get_tree_bbox t2) = false →
      G.do_intersect t1 t2 = false)
    (hnest : ∀ k, k < S.m_aabb_trees.length → k ≠ mesh_id →
      G.do_overlap (G.get_tree_bbox (treeAt S k)) (G.get_tree_bbox (treeAt S mesh_id)) = false →
      inclusion_step G S mesh_id k = some []) :
    ((get_all_intersections_cached G S mesh_id).2 = get_all_intersections G S mesh_id) ∧
    ((get_all_intersections_and_inclusions_cached G S mesh_id).2 =
      get_all_intersections_and_inclusions G S mesh_id) := by
  have hbi : bboxAt (update_bboxes G S) mesh_id = G.get_tree_bbox (treeAt S mesh_id) :=
    bboxAt_update_bboxes G S mesh_id (by omega) (hacc mesh_id hi)
  constructor
  · show (List.range (update_bboxes G S).m_aabb_trees.length).filter
        (fun k => k != mesh_id &&
          G.do_overlap (bboxAt (update_bboxes G S) k) (bboxAt (update_bboxes G S) mesh_id) &&
          G.do_intersect (treeAt (update_bboxes G S) k) (treeAt (update_bboxes G S) mesh_id)) =
      get_all_intersections G S mesh_id
    rw [trees_update_bboxes]
    unfold get_all_intersections
    apply List.filter_congr
    intro k hk
    rw [List.mem_range] at hk
    by_cases hki : k = mesh_id
    · subst hki
      simp
    · have hbk : bboxAt (update_bboxes G S) k = G.get_tree_bbox (treeAt S k) :=
        bboxAt_update_bboxes G S k (by omega) (hacc k hk)
      simp only [hbk, hbi, treeAt_update_bboxes]
      cases hov : G.do_overlap (G.get_tree_bbox (treeAt S k)) (G.get_tree_bbox (treeAt S mesh_id))
      · rw [hcons _ _ hov]
        simp
      · simp
  · show inclusion_loop_cached G (update_bboxes G S) mesh_id
        (List.range (update_bboxes G S).m_aabb_trees.length) =
      get_all_intersections_and_inclusions G S mesh_id
    rw [trees_update_bboxes]
    unfold get_all_intersections_and_inclusions
    apply inclusion_loop_cached_congr
    intro k hk
    rw [List.mem_range] at hk
    by_cases hki : k = mesh_id
    · subst hki
      simp [inclusion_step_cached, inclusion_step_self]
    · unfold inclusion_step_cached
      rw [if_neg hki]
      have hbk : bboxAt (update_bboxes G S) k = G.get_tree_bbox (treeAt S k) :=
        bboxAt_update_bboxes G S k (by omega) (hacc k hk)
      rw [hbk, hbi]
      cases hov : G.do_overlap (G.get_tree_bbox (treeAt S k)) (G.get_tree_bbox (treeAt S mesh_id))
      · rw [if_pos rfl]
        exact (hnest k hk hki hov).symm
      · rw [if_neg (by simp)]
        exact inclusion_step_update_bboxes G S mesh_id k

/-- Witness for C8 at the intersecting oracle (every box overlap true, every
invalid bit set), two-mesh registry, query 0. -/
theorem C8_witness :
    (0 < Wtrue.m_aabb_trees.length) ∧
    (Wtrue.m_bboxes.length = Wtrue.m_aabb_trees.length) ∧
    (∀ j, j < Wtrue.m_aabb_trees.length →
      Wtrue.m_bboxes_is_invalid.getD j true = false →
      bboxAt Wtrue j = Gtrue.get_tree_bbox (treeAt Wtrue j)) ∧
    (∀ t1 t2, Gtrue.do_overlap (Gtrue.get_tree_bbox t1) (Gtrue.get_tree_bbox t2) = false →
      Gtrue.do_intersect t1 t2 = false) ∧
    (∀ k, k < Wtrue.m_aabb_trees.length → k ≠ 0 →
      Gtrue.do_overlap (Gtrue.get_tree_bbox (treeAt Wtrue k))
        (Gtrue.get_tree_bbox (treeAt Wtrue 0)) = false →
      inclusion_step Gtrue Wtrue 0 k = some []) ∧
    (((get_all_intersections_cached Gtrue Wtrue 0).2 = get_all_intersections Gtrue Wtrue 0) ∧
    ((get_all_intersections_and_inclusions_cached Gtrue Wtrue 0).2 =
      get_all_intersections_and_inclusions Gtrue Wtrue 0)) :=
  ⟨by decide, by decide, by decide,
   fun t1 t2 h => by simp [Gtrue] at h,
   fun k hk hki h => by simp [Gtrue] at h,
   C8_cache_preserves_queries Gtrue Wtrue 0 (by decide) (by decide) (by decide)
     (fun t1 t2 h => by simp [Gtrue] at h)
     (fun k hk hki h => by simp [Gtrue] at h)⟩

end RigidMeshCollisionDetection
